import Mathlib

/-!
Verification of the ingestion/versioning pipeline of the AML research tracker.

The development embeds, state by state, the SQLite-backed data layer
(`src/src/database.py`), the analyzer construction (`src/src/ai_analyzer.py`)
and the orchestration endpoints (`src/app.py`) as pure Lean functions over an
explicit database state, and proves or refutes the specified properties.

Modelling conventions, matching the source and SQLite semantics:
* Date columns hold ISO date strings; SQLite and Python compare them as
  strings, which for the purposes of this model is the lexicographic order on
  their character lists.  All comparisons below go through `strLe`/`strLt`,
  which are exactly that order (`String.lt_iff_toList_lt` relates it to the
  order on `String` itself).
* `INSERT OR REPLACE` into a table whose `id` is `AUTOINCREMENT` deletes the
  conflicting row and inserts a fresh row with a brand-new id (the id column
  is absent from the column list, so it is auto-assigned).  The model keeps a
  `next_..._id` counter per table.
* `NULL`-able columns are `Option`; a SQL comparison with `NULL` is false.
* Wall-clock columns (`created_at`, `last_seen`) and the constant
  `relevance_score` of `paper_terms` (always 1.0 in the source), as well as the
  `category` column of `key_terms` (never written non-NULL by the code under
  study), are omitted: no claim mentions them and they influence no branch.
-/

/-- Python `s.lower()` on the char sequence of a string. -/
def lower (s : String) : String := String.mk (s.data.map Char.toLower)

/-- Lexicographic `≤` on date strings, as SQLite/Python compare TEXT dates. -/
def strLe (a b : String) : Prop := a.data ≤ b.data

/-- Lexicographic `<` on date strings. -/
def strLt (a b : String) : Prop := a.data < b.data

instance : DecidableRel strLe := fun a b => by unfold strLe; infer_instance

instance : DecidableRel strLt := fun a b => by unfold strLt; infer_instance

/-- Python `max` of two date strings. -/
def strMax (a b : String) : String := if strLe a b then b else a

/-- A bibliographic record as passed to `DatabaseManager.insert_paper`
(the column list of the `INSERT OR REPLACE` at database.py:150). -/
structure PaperData where
  pmid : String
  title : String
  publish_date : Option String
  article_type : Option String
  num_references : Option Nat
  main_findings : Option String
  abstract : Option String
  authors : Option String
  journal : Option String
  key_terms : List String
deriving DecidableEq

/-- A stored row of the `papers` table: surrogate `id` plus the record fields. -/
structure PaperRow where
  id : Nat
  data : PaperData
deriving DecidableEq

/-- A row of the `key_terms` table. -/
structure KeyTermRow where
  id : Nat
  term : String
  frequency : Nat
deriving DecidableEq

/-- A row of the `paper_terms` junction table. -/
structure PaperTermRow where
  paper_id : Nat
  term_id : Nat
deriving DecidableEq

/-- A row of the `research_summaries` table. -/
structure SummaryRow where
  version : Nat
  language : String
  content : String
  paper_count : Nat
  latest_paper_date : Option String
  key_trends : String
  therapeutic_targets : String
  prognostic_markers : String
deriving DecidableEq

/-- The database state: the four tables the claims touch plus the two
`settings` rows (`summary_version`, `last_update_date`) and the
AUTOINCREMENT counters. -/
structure DB where
  papers : List PaperRow
  next_paper_id : Nat
  key_terms : List KeyTermRow
  next_term_id : Nat
  paper_terms : List PaperTermRow
  summaries : List SummaryRow
  summary_version : Nat
  last_update_date : String
deriving DecidableEq

/-- `init_database`: empty tables, settings seeded with
`last_update_date = 2024-08-12` and `summary_version = 0`
(database.py:124-133); SQLite rowids start at 1. -/
def init_database : DB :=
  { papers := []
    next_paper_id := 1
    key_terms := []
    next_term_id := 1
    paper_terms := []
    summaries := []
    summary_version := 0
    last_update_date := "2024-08-12" }

/-- `DatabaseManager.insert_key_terms` (database.py:258-282).  For each term,
lowercased: `INSERT OR REPLACE INTO key_terms` with
`frequency = COALESCE((SELECT frequency WHERE term = ?), 0) + 1` — the
REPLACE deletes any existing row for the term and inserts a fresh row with a
new id; then the new id is read back and
`INSERT OR REPLACE INTO paper_terms (paper_id, term_id)` links the paper to
it.  Note the code never deletes the paper's previous `paper_terms` rows. -/
def insert_key_terms (db : DB) (paper_id : Nat) (terms : List String) : DB :=
  terms.foldl (fun db term =>
    let t := lower term
    let oldFreq := ((db.key_terms.find? (fun kt => kt.term == t)).map
      KeyTermRow.frequency).getD 0
    let newId := db.next_term_id
    let kts := db.key_terms.filter (fun kt => kt.term != t) ++
      [{ id := newId, term := t, frequency := oldFreq + 1 }]
    let pts := db.paper_terms.filter
      (fun pt => !(pt.paper_id == paper_id && pt.term_id == newId)) ++
      [{ paper_id := paper_id, term_id := newId }]
    { db with key_terms := kts, next_term_id := newId + 1, paper_terms := pts })
    db

/-- `DatabaseManager.insert_paper` (database.py:143-182):
`INSERT OR REPLACE INTO papers` keyed by the UNIQUE `pmid` (conflicting row
deleted, fresh id assigned), read the id back by pmid, then
`insert_key_terms` when the record carries a non-empty term list
(Python truthiness of `paper_data.get('key_terms')`). -/
def insert_paper (db : DB) (pd : PaperData) : DB :=
  let newId := db.next_paper_id
  let db1 := { db with
    papers := db.papers.filter (fun r => r.data.pmid != pd.pmid) ++
      [{ id := newId, data := pd }]
    next_paper_id := newId + 1 }
  if pd.key_terms = [] then db1 else insert_key_terms db1 newId pd.key_terms

/-- DESC order on a nullable date column: later dates first; SQLite sorts
`NULL` first in ASC order, hence last in DESC order. -/
def opt_date_desc : Option String → Option String → Prop
  | none, none => True
  | none, some _ => False
  | some _, none => True
  | some x, some y => strLe y x

instance : DecidableRel opt_date_desc := fun a b => by
  rcases a with _ | x <;> rcases b with _ | y <;>
    simp only [opt_date_desc] <;> infer_instance

theorem opt_date_desc_total (a b : Option String) :
    opt_date_desc a b ∨ opt_date_desc b a := by
  rcases a with _ | x <;> rcases b with _ | y <;> simp only [opt_date_desc]
  · exact Or.inl trivial
  · exact Or.inr trivial
  · exact Or.inl trivial
  · exact (le_total y.data x.data).imp id id

theorem opt_date_desc_trans (a b c : Option String)
    (hab : opt_date_desc a b) (hbc : opt_date_desc b c) : opt_date_desc a c := by
  rcases a with _ | x <;> rcases b with _ | y <;> rcases c with _ | z <;>
    simp only [opt_date_desc] at *
  all_goals first
    | trivial
    | exact hab.elim
    | exact hbc.elim
    | exact le_trans (α := List Char) hbc hab

/-- `ORDER BY publish_date DESC` on paper rows. -/
def date_desc (a b : PaperRow) : Prop :=
  opt_date_desc a.data.publish_date b.data.publish_date

instance : DecidableRel date_desc := fun a b => by
  unfold date_desc; infer_instance

instance : IsTotal PaperRow date_desc :=
  ⟨fun a b => opt_date_desc_total a.data.publish_date b.data.publish_date⟩

instance : IsTrans PaperRow date_desc :=
  ⟨fun _ _ _ hab hbc => opt_date_desc_trans _ _ _ hab hbc⟩

/-- `DatabaseManager.get_all_papers` (database.py:184-195):
`SELECT * FROM papers ORDER BY publish_date DESC`, with a `LIMIT` clause only
when the `limit` argument is truthy (so `0` means no limit). -/
def get_all_papers (db : DB) (limit : Option Nat) : List PaperRow :=
  let sorted := db.papers.insertionSort date_desc
  match limit with
  | none => sorted
  | some 0 => sorted
  | some n => sorted.take n

/-- `DatabaseManager.get_papers_after_date` (database.py:197-206):
`WHERE publish_date > ?`.  A `NULL` bound or a `NULL` publish_date makes the
comparison false. -/
def get_papers_after_date (db : DB) (date : Option String) : List PaperRow :=
  match date with
  | none => []
  | some d =>
    (db.papers.filter (fun r =>
      match r.data.publish_date with
      | none => false
      | some pd => decide (strLt d pd))).insertionSort date_desc

/-- `DatabaseManager.update_last_update_date` (database.py:208-216). -/
def update_last_update_date (db : DB) (date : String) : DB :=
  { db with last_update_date := date }

/-- `ORDER BY frequency DESC` on key terms. -/
def freq_desc (a b : KeyTermRow) : Prop := b.frequency ≤ a.frequency

instance : DecidableRel freq_desc := fun a b => by unfold freq_desc; infer_instance

instance : IsTotal KeyTermRow freq_desc :=
  ⟨fun a b => Nat.le_total b.frequency a.frequency⟩

instance : IsTrans KeyTermRow freq_desc :=
  ⟨fun _ _ _ h h2 => le_trans h2 h⟩

/-- `DatabaseManager.get_all_key_terms` (database.py:284-294). -/
def get_all_key_terms (db : DB) : List KeyTermRow :=
  db.key_terms.insertionSort freq_desc

/-- The join condition of `get_papers_by_terms`: some live `paper_terms` row
links paper `pid` to a live `key_terms` row whose term is in `terms`. -/
def joins_to_term_in (db : DB) (terms : List String) (pid : Nat) : Prop :=
  ∃ pt ∈ db.paper_terms, pt.paper_id = pid ∧
    ∃ kt ∈ db.key_terms, kt.id = pt.term_id ∧ kt.term ∈ terms

instance (db : DB) (terms : List String) (pid : Nat) :
    Decidable (joins_to_term_in db terms pid) := by
  unfold joins_to_term_in; infer_instance

/-- The record is currently associated with term `t` through the junction
table (live rows on both sides of the join). -/
def record_has_term (db : DB) (pid : Nat) (t : String) : Prop :=
  joins_to_term_in db [t] pid

instance (db : DB) (pid : Nat) (t : String) :
    Decidable (record_has_term db pid t) := by
  unfold record_has_term; infer_instance

/-- `DatabaseManager.get_papers_by_terms` (database.py:296-316): an empty term
list falls back to `get_all_papers()`; otherwise
`SELECT DISTINCT p.* FROM papers JOIN paper_terms JOIN key_terms
WHERE kt.term IN (...) ORDER BY p.publish_date DESC`. -/
def get_papers_by_terms (db : DB) (terms : List String) : List PaperRow :=
  if terms = [] then get_all_papers db none
  else
    ((db.papers.filter (fun p =>
      decide (joins_to_term_in db terms p.id))).dedup).insertionSort date_desc

/-- `DatabaseManager.save_research_summary` (database.py:318-347): read the
single global `settings.summary_version`, add one, `INSERT OR REPLACE` the
summary row (UNIQUE on `(version, language)`), store the counter back, and
return the new version. -/
def save_research_summary (db : DB) (content : String) (language : String)
    (paper_count : Nat) (latest_paper_date : Option String)
    (key_trends therapeutic_targets prognostic_markers : String) : DB × Nat :=
  let current_version := db.summary_version + 1
  let rows := db.summaries.filter
      (fun s => !(s.version == current_version && s.language == language)) ++
    [{ version := current_version, language := language, content := content
       paper_count := paper_count, latest_paper_date := latest_paper_date
       key_trends := key_trends, therapeutic_targets := therapeutic_targets
       prognostic_markers := prognostic_markers }]
  ({ db with summaries := rows, summary_version := current_version },
    current_version)

/-- `DatabaseManager.get_latest_summary` (database.py:349-369):
`WHERE language = ? ORDER BY version DESC LIMIT 1` — the stored row of that
language with the greatest version. -/
def get_latest_summary (db : DB) (language : String) : Option SummaryRow :=
  (db.summaries.filter (fun s => s.language == language)).foldl
    (fun acc s =>
      match acc with
      | none => some s
      | some m => if m.version < s.version then some s else some m)
    none

/-- `DatabaseManager.paper_exists` (database.py:447-456). -/
def paper_exists (db : DB) (pmid : String) : Bool :=
  db.papers.any (fun r => r.data.pmid == pmid)

/-- The state `AIAnalyzer.__init__` leaves behind: `client`/`model` are `None`
when construction of the API client was skipped. -/
structure AIAnalyzerState where
  client : Option String
  model : Option String
deriving DecidableEq

/-- `AIAnalyzer.__init__` (ai_analyzer.py:10-26).  The body raises
`ValueError` when `XAI_API_KEY` is absent (or empty — Python truthiness of
`if not api_key`), but the surrounding try/except catches every exception,
prints a warning and falls back to `client = None`, so the constructor
itself always returns normally.  The `Except` result type records whether an
error propagates out of the constructor. -/
def ai_analyzer_init (api_key : Option String) : Except String AIAnalyzerState :=
  let attempt : Except String AIAnalyzerState :=
    match api_key with
    | none => Except.error "XAI_API_KEY not found in environment variables"
    | some k =>
      if k = "" then Except.error "XAI_API_KEY not found in environment variables"
      else Except.ok { client := some k, model := some "grok-2" }
  match attempt with
  | Except.error _ => Except.ok { client := none, model := none }
  | Except.ok st => Except.ok st

/-- `AIAnalyzer.analyze_paper` (ai_analyzer.py:28-62): with no client the
placeholder is returned immediately; otherwise the opaque API response
(threaded in as `api_response`) is returned, or a failure placeholder if the
call raised. -/
def analyze_paper (st : AIAnalyzerState) (api_response : Except String String) :
    String :=
  match st.client with
  | none => "AI analysis unavailable"
  | some _ =>
    match api_response with
    | Except.error _ => "Analysis failed"
    | Except.ok text => text

/-- The text-generation collaborator as seen by `api_generate_summary`: its
three calls are opaque total functions of their inputs (the Python methods
catch their own exceptions and fall back to placeholder strings).  The trend
extraction returns the three JSON-encoded lists stored in the summary row. -/
structure Analyzer where
  generate_incremental_summary : String → List PaperRow → String → String
  generate_comprehensive_summary : List PaperRow → String → String
  extract_research_trends : List PaperRow → String × String × String

/-- The JSON body `api_generate_summary` answers with: either an error
response or the fields of the success payload that the claims mention. -/
inductive SummaryResponse where
  | error (message : String)
  | ok (summary : String) (total_papers : Nat) (new_papers : Nat)
      (version : Nat) (update_type : String)
deriving DecidableEq

/-- Python `max(p['publish_date'] for p in papers if p.get('publish_date'))`:
the greatest date among the truthy (non-NULL, non-empty) publish dates, or
`none` when the generator is empty — in which case Python `max` raises
`ValueError`, caught by the endpoint's outer handler. -/
def max_publish_date (papers : List PaperRow) : Option String :=
  (papers.filterMap (fun p =>
    match p.data.publish_date with
    | none => none
    | some d => if d = "" then none else some d)).foldl
    (fun acc d =>
      match acc with
      | none => some d
      | some m => some (strMax m d))
    none

/-- The full-generation branch of `api_generate_summary` (app.py:189-210),
also reached under `force_regenerate`: comprehensive summary, trends over the
selected papers, save with the max publish date of the selected papers. -/
def full_generation (an : Analyzer) (db : DB) (language : String)
    (papers : List PaperRow) : DB × SummaryResponse :=
  let summary := an.generate_comprehensive_summary papers language
  let trends := an.extract_research_trends papers
  match max_publish_date papers with
  | none => (db, SummaryResponse.error "max() arg is an empty sequence")
  | some d =>
    let res := save_research_summary db summary language papers.length (some d)
      trends.1 trends.2.1 trends.2.2
    (res.1, SummaryResponse.ok summary papers.length papers.length res.2
      "complete")

/-- `api_generate_summary` (app.py:122-216).  Papers are the term-filtered
set when `selected_terms` is non-empty (Python truthiness), else all papers;
an empty selection is a 400 error; with an existing summary and no forced
regeneration, an empty `get_papers_after_date(existing.latest_paper_date)`
returns the stored summary unchanged (update_type `no_update`), while a
non-empty one merges incrementally and saves with
`max(p['publish_date'] for p in papers if ...)` over the *selected* set.
A Python `max` on an empty sequence raises and the outer handler answers 500
with the database untouched. -/
def api_generate_summary (an : Analyzer) (db : DB) (language : String)
    (force_regenerate : Bool) (selected_terms : List String) :
    DB × SummaryResponse :=
  let papers := if selected_terms = [] then get_all_papers db none
    else get_papers_by_terms db selected_terms
  if papers = [] then (db, SummaryResponse.error "No papers found")
  else
    match get_latest_summary db language with
    | some existing_summary =>
      if force_regenerate then full_generation an db language papers
      else
        let new_papers := get_papers_after_date db
          existing_summary.latest_paper_date
        if new_papers = [] then
          (db, SummaryResponse.ok existing_summary.content
            existing_summary.paper_count 0 existing_summary.version "no_update")
        else
          let updated_content := an.generate_incremental_summary
            existing_summary.content new_papers language
          let trends := an.extract_research_trends papers
          match max_publish_date papers with
          | none => (db, SummaryResponse.error "max() arg is an empty sequence")
          | some d =>
            let res := save_research_summary db updated_content language
              papers.length (some d) trends.1 trends.2.1 trends.2.2
            (res.1, SummaryResponse.ok updated_content papers.length
              new_papers.length res.2 "incremental")
    | none => full_generation an db language papers

/-- Outcome reported by the `update_research` route. -/
inductive UpdateOutcome where
  | error
  | no_new_papers
  | success (processed_count : Nat)
deriving DecidableEq

/-- `update_research` (app.py:38-98).  External effects are threaded in as
oracles: `count_result` for `scraper.get_paper_count` (raising maps to
`Except.error`), `fetch_result` for `scraper.scrape_multiple_pages`, and
`analyze_result` for the two analyzer calls on one record (findings and key
terms; a raise from either is the per-record exception that the loop catches
and skips).  On an update run with zero counted papers the route returns
early; otherwise, after the loop, the cursor `last_update_date` is set to the
current date unconditionally.  A raise from count or fetch is caught by the
outer handler, leaving the database untouched. -/
def update_research (db : DB) (is_initial : Bool) (current_date : String)
    (count_result : Except String Nat)
    (fetch_result : Except String (List PaperData))
    (analyze_result : PaperData → Except String (String × List String)) :
    DB × UpdateOutcome :=
  match count_result with
  | Except.error _ => (db, UpdateOutcome.error)
  | Except.ok total_papers =>
    if !is_initial && total_papers == 0 then (db, UpdateOutcome.no_new_papers)
    else
      match fetch_result with
      | Except.error _ => (db, UpdateOutcome.error)
      | Except.ok papers =>
        let res := papers.foldl
          (fun (acc : DB × Nat) paper =>
            match analyze_result paper with
            | Except.error _ => acc
            | Except.ok findings_terms =>
              let paper1 := { paper with
                main_findings := some findings_terms.1
                key_terms := findings_terms.2 }
              (insert_paper acc.1 paper1, acc.2 + 1))
          (db, 0)
        (update_last_update_date res.1 current_date,
          UpdateOutcome.success res.2)

/-! ## Helper lemmas and shared sample data -/

/-- A record with the given identifier, title, date and term list; the
remaining nullable columns stay NULL. -/
def mk_paper (pmid title : String) (date : Option String)
    (terms : List String) : PaperData :=
  { pmid := pmid, title := title, publish_date := date, article_type := none
    num_references := none, main_findings := none, abstract := none
    authors := none, journal := none, key_terms := terms }

/-- A concrete stand-in for the text-generation collaborator: the merge
returns the existing content, the full generation a fixed string, trends
empty JSON lists. -/
def sample_analyzer : Analyzer :=
  { generate_incremental_summary := fun c _ _ => c
    generate_comprehensive_summary := fun _ _ => "summary"
    extract_research_trends := fun _ => ("[]", "[]", "[]") }

/-- `insert_key_terms` only touches the term tables: papers, summaries and
settings are untouched. -/
theorem insert_key_terms_preserves (pid : Nat) (ts : List String) (db : DB) :
    (insert_key_terms db pid ts).papers = db.papers ∧
    (insert_key_terms db pid ts).next_paper_id = db.next_paper_id ∧
    (insert_key_terms db pid ts).summaries = db.summaries ∧
    (insert_key_terms db pid ts).summary_version = db.summary_version ∧
    (insert_key_terms db pid ts).last_update_date = db.last_update_date := by
  induction ts generalizing db with
  | nil => exact ⟨rfl, rfl, rfl, rfl, rfl⟩
  | cons t ts ih =>
    have h := ih ({ (db : DB) with
      key_terms := db.key_terms.filter (fun kt => kt.term != lower t) ++
        [{ id := db.next_term_id, term := lower t
           frequency := ((db.key_terms.find? (fun kt => kt.term == lower t)).map
             KeyTermRow.frequency).getD 0 + 1 }]
      next_term_id := db.next_term_id + 1
      paper_terms := db.paper_terms.filter
        (fun pt => !(pt.paper_id == pid && pt.term_id == db.next_term_id)) ++
        [{ paper_id := pid, term_id := db.next_term_id }] })
    exact h

/-- The paper rows left by `insert_paper`: the rows of other pmids, then a
fresh row holding exactly the upserted fields. -/
theorem insert_paper_papers (db : DB) (pd : PaperData) :
    (insert_paper db pd).papers =
      db.papers.filter (fun r => r.data.pmid != pd.pmid) ++
        [{ id := db.next_paper_id, data := pd }] := by
  simp only [insert_paper]
  by_cases h : pd.key_terms = []
  · rw [if_pos h]
  · rw [if_neg h]
    exact (insert_key_terms_preserves db.next_paper_id pd.key_terms _).1

/-- The pmid column stays duplicate-free under upserts. -/
def pmids_nodup (db : DB) : Prop :=
  (db.papers.map (fun r => r.data.pmid)).Nodup

theorem insert_paper_pmids_nodup (db : DB) (pd : PaperData)
    (h : pmids_nodup db) : pmids_nodup (insert_paper db pd) := by
  unfold pmids_nodup at *
  rw [insert_paper_papers]
  rw [List.map_append]
  rw [List.nodup_append]
  refine ⟨?_, List.nodup_singleton _, ?_⟩
  · exact List.Sublist.nodup
      ((List.filter_sublist db.papers).map (fun r => r.data.pmid)) h
  · intro x hx
    simp only [List.mem_map, List.mem_filter, bne_iff_ne] at hx
    obtain ⟨r, ⟨_, hne⟩, rfl⟩ := hx
    intro hc
    simp only [List.map_cons, List.map_nil, List.mem_singleton] at hc
    exact hne hc

theorem foldl_insert_paper_pmids_nodup (db : DB) (h : pmids_nodup db)
    (pds : List PaperData) : pmids_nodup (pds.foldl insert_paper db) := by
  induction pds generalizing db with
  | nil => exact h
  | cons pd pds ih => exact ih _ (insert_paper_pmids_nodup db pd h)

/-- The join over a term list holds exactly when it holds for one of the
terms individually. -/
theorem joins_to_term_in_iff (db : DB) (terms : List String) (pid : Nat) :
    joins_to_term_in db terms pid ↔
      ∃ t ∈ terms, record_has_term db pid t := by
  unfold record_has_term joins_to_term_in
  constructor
  · rintro ⟨pt, hpt, hpid, kt, hkt, hid, hterm⟩
    exact ⟨kt.term, hterm, pt, hpt, hpid, kt, hkt, hid, List.mem_singleton.mpr rfl⟩
  · rintro ⟨t, ht, pt, hpt, hpid, kt, hkt, hid, hterm⟩
    rw [List.mem_singleton] at hterm
    exact ⟨pt, hpt, hpid, kt, hkt, hid, hterm ▸ ht⟩

/-! ## C10 -/

/-- C10: for the empty term set, `get_papers_by_terms` falls back to
`get_all_papers`, which returns all stored records (a permutation of the
`papers` table) ordered by publish date descending. -/
theorem C10_empty_terms_returns_all (db : DB) :
    get_papers_by_terms db [] = get_all_papers db none ∧
    (get_all_papers db none).Perm db.papers ∧
    (get_all_papers db none).Sorted date_desc := by
  refine ⟨by simp [get_papers_by_terms], ?_, ?_⟩
  · exact List.perm_insertionSort date_desc db.papers
  · exact List.sorted_insertionSort date_desc db.papers

/-! ## C6 -/

/-- C6: upserting two records with the same external id leaves exactly one
stored row for that pmid, holding the second record's fields; and no sequence
of upserts from the initial database ever creates two rows sharing a pmid. -/
theorem C6_upsert_last_write_wins (db : DB) (pd1 pd2 : PaperData)
    (h : pd1.pmid = pd2.pmid) :
    ((insert_paper (insert_paper db pd1) pd2).papers.filter
        (fun r => r.data.pmid == pd2.pmid)).map PaperRow.data = [pd2] ∧
    ∀ pds : List PaperData,
      pmids_nodup (pds.foldl insert_paper init_database) := by
  constructor
  · rw [insert_paper_papers]
    rw [List.filter_append]
    have h1 : ((insert_paper db pd1).papers.filter
        (fun r => r.data.pmid != pd2.pmid)).filter
        (fun r => r.data.pmid == pd2.pmid) = [] := by
      rw [List.filter_filter]
      apply List.filter_eq_nil_iff.mpr
      intro r _
      by_cases hc : r.data.pmid = pd2.pmid <;> simp [hc]
    rw [h1]
    simp
  · intro pds
    apply foldl_insert_paper_pmids_nodup
    exact List.nodup_nil

/-- Witness for C6 at concrete records sharing pmid "R1": title "A" then
title "B". -/
theorem C6_upsert_last_write_wins_witness :
    (mk_paper "R1" "A" (some "2025-01-01") []).pmid =
      (mk_paper "R1" "B" (some "2025-02-01") []).pmid ∧
    (((insert_paper (insert_paper init_database
          (mk_paper "R1" "A" (some "2025-01-01") []))
        (mk_paper "R1" "B" (some "2025-02-01") [])).papers.filter
        (fun r => r.data.pmid == (mk_paper "R1" "B" (some "2025-02-01") []).pmid)).map
        PaperRow.data = [mk_paper "R1" "B" (some "2025-02-01") []] ∧
      ∀ pds : List PaperData,
        pmids_nodup (pds.foldl insert_paper init_database)) :=
  ⟨rfl, C6_upsert_last_write_wins init_database
    (mk_paper "R1" "A" (some "2025-01-01") [])
    (mk_paper "R1" "B" (some "2025-02-01") []) rfl⟩

/-! ## C7 -/

/-- C7: for a non-empty term list, `get_papers_by_terms` returns exactly the
stored records associated with at least one of the terms (OR semantics), and
each such record occurs exactly once in the result. -/
theorem C7_or_semantics_no_duplicates (db : DB) (terms : List String)
    (hne : terms ≠ []) (p : PaperRow) :
    (p ∈ get_papers_by_terms db terms ↔
      p ∈ db.papers ∧ ∃ t ∈ terms, record_has_term db p.id t) ∧
    (p ∈ get_papers_by_terms db terms →
      (get_papers_by_terms db terms).count p = 1) := by
  have hdef : get_papers_by_terms db terms =
      ((db.papers.filter (fun p =>
        decide (joins_to_term_in db terms p.id))).dedup).insertionSort
        date_desc := by
    unfold get_papers_by_terms
    rw [if_neg hne]
  have hperm := List.perm_insertionSort date_desc
    ((db.papers.filter (fun p => decide (joins_to_term_in db terms p.id))).dedup)
  constructor
  · rw [hdef]
    rw [hperm.mem_iff]
    rw [List.mem_dedup]
    rw [List.mem_filter]
    rw [decide_eq_true_eq]
    rw [joins_to_term_in_iff]
  · intro hp
    rw [hdef] at hp ⊢
    rw [hperm.count_eq]
    rw [hperm.mem_iff] at hp
    rw [List.count_eq_one_of_mem (List.nodup_dedup _) hp]

/-- Witness for C7: one record carrying both terms appears exactly once in
the OR query over both. -/
theorem C7_or_semantics_no_duplicates_witness :
    (["tp53", "mdm2"] : List String) ≠ [] ∧
    (({ id := 1
        data := mk_paper "7" "t" (some "2025-01-01") ["TP53", "MDM2"] } : PaperRow) ∈
        get_papers_by_terms
          (insert_paper init_database
            (mk_paper "7" "t" (some "2025-01-01") ["TP53", "MDM2"]))
          ["tp53", "mdm2"] ↔
      ({ id := 1
         data := mk_paper "7" "t" (some "2025-01-01") ["TP53", "MDM2"] } : PaperRow) ∈
        (insert_paper init_database
          (mk_paper "7" "t" (some "2025-01-01") ["TP53", "MDM2"])).papers ∧
      ∃ t ∈ (["tp53", "mdm2"] : List String),
        record_has_term
          (insert_paper init_database
            (mk_paper "7" "t" (some "2025-01-01") ["TP53", "MDM2"])) 1 t) ∧
    (({ id := 1
        data := mk_paper "7" "t" (some "2025-01-01") ["TP53", "MDM2"] } : PaperRow) ∈
        get_papers_by_terms
          (insert_paper init_database
            (mk_paper "7" "t" (some "2025-01-01") ["TP53", "MDM2"]))
          ["tp53", "mdm2"] →
      (get_papers_by_terms
          (insert_paper init_database
            (mk_paper "7" "t" (some "2025-01-01") ["TP53", "MDM2"]))
          ["tp53", "mdm2"]).count
        ({ id := 1
           data := mk_paper "7" "t" (some "2025-01-01") ["TP53", "MDM2"] } : PaperRow) = 1) :=
  ⟨by decide,
    C7_or_semantics_no_duplicates
      (insert_paper init_database
        (mk_paper "7" "t" (some "2025-01-01") ["TP53", "MDM2"]))
      ["tp53", "mdm2"] (by decide)
      { id := 1, data := mk_paper "7" "t" (some "2025-01-01") ["TP53", "MDM2"] }⟩

/-! ## C5 -/

/-- C5: with an existing summary, no forced regeneration and no record newer
than its `latest_paper_date`, the request answers with the stored content and
version, update type `no_update`, and leaves the database — hence the version
counter and every stored row — untouched, so repeating the request gives the
same answer.  (The hypothesis that the store is non-empty always holds when a
summary exists, since summaries are only saved over a non-empty paper set and
records are never deleted.) -/
theorem C5_up_to_date_idempotent (an : Analyzer) (db : DB) (language : String)
    (s : SummaryRow) (hs : get_latest_summary db language = some s)
    (hp : get_all_papers db none ≠ [])
    (hnew : get_papers_after_date db s.latest_paper_date = []) :
    api_generate_summary an db language false [] =
      (db, SummaryResponse.ok s.content s.paper_count 0 s.version
        "no_update") := by
  unfold api_generate_summary
  simp [hs, hnew, hp]

/-- Witness for C5: a store with one 2025-01-01 record and its version-1
summary; a second unforced request returns the stored summary unchanged. -/
theorem C5_up_to_date_idempotent_witness :
    get_latest_summary
        (api_generate_summary sample_analyzer
          (insert_paper init_database (mk_paper "1" "t" (some "2025-01-01") []))
          "en" false []).1 "en" =
      some { version := 1, language := "en", content := "summary"
             paper_count := 1, latest_paper_date := some "2025-01-01"
             key_trends := "[]", therapeutic_targets := "[]"
             prognostic_markers := "[]" } ∧
    get_all_papers
        (api_generate_summary sample_analyzer
          (insert_paper init_database (mk_paper "1" "t" (some "2025-01-01") []))
          "en" false []).1 none ≠ [] ∧
    get_papers_after_date
        (api_generate_summary sample_analyzer
          (insert_paper init_database (mk_paper "1" "t" (some "2025-01-01") []))
          "en" false []).1 (some "2025-01-01") = [] ∧
    api_generate_summary sample_analyzer
        (api_generate_summary sample_analyzer
          (insert_paper init_database (mk_paper "1" "t" (some "2025-01-01") []))
          "en" false []).1 "en" false [] =
      ((api_generate_summary sample_analyzer
          (insert_paper init_database (mk_paper "1" "t" (some "2025-01-01") []))
          "en" false []).1,
        SummaryResponse.ok "summary" 1 0 1 "no_update") :=
  ⟨by decide, by decide, by decide,
    C5_up_to_date_idempotent sample_analyzer _ "en"
      { version := 1, language := "en", content := "summary"
        paper_count := 1, latest_paper_date := some "2025-01-01"
        key_trends := "[]", therapeutic_targets := "[]"
        prognostic_markers := "[]" }
      (by decide) (by decide) (by decide)⟩

/-! ## C9 -/

/-- C9 counterexample: with the credential missing from the configuration,
constructing the analyzer does not raise — the internal error is caught and
the constructor returns normally. -/
theorem C9_counterexample_init_never_raises :
    ¬ ∃ msg, ai_analyzer_init none = Except.error msg := by
  intro hc
  obtain ⟨msg, hmsg⟩ := hc
  simp [ai_analyzer_init] at hmsg

/-- C9 amended: constructing the analyzer always succeeds; with the
credential missing the constructor catches its internal error and returns a
disabled client, and every per-record analysis call on that client returns
the placeholder text instead of failing. -/
theorem C9_amended_degrades_to_disabled_client :
    (∀ api_key : Option String, ∃ st, ai_analyzer_init api_key = Except.ok st) ∧
    ai_analyzer_init none = Except.ok { client := none, model := none } ∧
    ∀ r, analyze_paper { client := none, model := none } r =
      "AI analysis unavailable" := by
  refine ⟨?_, rfl, fun r => rfl⟩
  intro api_key
  rcases api_key with _ | k
  · exact ⟨_, rfl⟩
  · by_cases h : k = ""
    · subst h
      exact ⟨_, rfl⟩
    · refine ⟨{ client := some k, model := some "grok-2" }, ?_⟩
      simp only [ai_analyzer_init]
      rw [if_neg h]

/-! ## C3 -/

/-- The store after one upsert, used to exercise the version counter. -/
def db_one_paper : DB :=
  insert_paper init_database (mk_paper "1" "t" (some "2025-01-01") [])

/-- State after a forced English summary (version 1) and a forced French
summary (version 2): the global counter is shared between the languages. -/
def db_en_fr : DB :=
  (api_generate_summary sample_analyzer
    (api_generate_summary sample_analyzer db_one_paper "en" true []).1
    "fr" true []).1

/-- C3 counterexample: English gets version 1, French version 2, and the next
English summary gets version 3 — not 2, the claimed previous-English-version
plus one.  The per-language sequence skips because the counter read by
`save_research_summary` is the single `settings.summary_version` row, shared
by all languages. -/
theorem C3_counterexample_version_skips :
    get_latest_summary db_en_fr "en" =
      some { version := 1, language := "en", content := "summary"
             paper_count := 1, latest_paper_date := some "2025-01-01"
             key_trends := "[]", therapeutic_targets := "[]"
             prognostic_markers := "[]" } ∧
    (api_generate_summary sample_analyzer db_en_fr "en" true []).2 =
      SummaryResponse.ok "summary" 1 1 3 "complete" ∧
    (3 : Nat) ≠ 1 + 1 := by
  refine ⟨by decide, by decide, by decide⟩

/-- Every stored summary version is at most the global counter — the
invariant `save_research_summary` maintains. -/
def versions_bounded (db : DB) : Prop :=
  ∀ s ∈ db.summaries, s.version ≤ db.summary_version

/-- C3 amended: a persisted summary's version is exactly one greater than the
previous value of the single global version counter shared by all languages
(so 1 on the first save overall); it is strictly greater than every stored
version of every language — hence versions per language never decrease and
never repeat — and the bounding invariant is preserved, so this holds across
any sequence of saves.  (The invariant holds initially: `init_database` has
no summaries and counter 0.) -/
theorem C3_amended_global_counter (db : DB) (content language : String)
    (n : Nat) (d : Option String) (kt tt pm : String)
    (hb : versions_bounded db) :
    (save_research_summary db content language n d kt tt pm).2 =
      db.summary_version + 1 ∧
    (∀ s ∈ db.summaries,
      s.version < (save_research_summary db content language n d kt tt pm).2) ∧
    versions_bounded (save_research_summary db content language n d kt tt pm).1 ∧
    versions_bounded init_database := by
  refine ⟨rfl, ?_, ?_, fun s hs => absurd hs (List.not_mem_nil s)⟩
  · intro s hs
    exact Nat.lt_succ_of_le (hb s hs)
  · intro s hs
    simp only [save_research_summary, List.mem_append] at hs
    rcases hs with hs | hs
    · have := hb s (List.mem_of_mem_filter hs)
      exact le_trans this (Nat.le_succ _)
    · rw [List.mem_singleton] at hs
      subst hs
      exact le_refl _

/-- Witness for C3 amended at the initial database: the first save overall
gets version 1. -/
theorem C3_amended_global_counter_witness :
    versions_bounded init_database ∧
    ((save_research_summary init_database "c" "en" 1 (some "2025-01-01")
        "[]" "[]" "[]").2 = init_database.summary_version + 1 ∧
      (∀ s ∈ init_database.summaries,
        s.version < (save_research_summary init_database "c" "en" 1
          (some "2025-01-01") "[]" "[]" "[]").2) ∧
      versions_bounded (save_research_summary init_database "c" "en" 1
        (some "2025-01-01") "[]" "[]" "[]").1 ∧
      versions_bounded init_database) :=
  ⟨fun s hs => absurd hs (List.not_mem_nil s),
    C3_amended_global_counter init_database "c" "en" 1 (some "2025-01-01")
      "[]" "[]" "[]" (fun s hs => absurd hs (List.not_mem_nil s))⟩

/-! ## C1 -/

/-- The store after ingesting the same record (pmid "p1", key term "TP53")
twice — the re-extraction scenario. -/
def db_reextracted : DB :=
  insert_paper (insert_paper init_database
    (mk_paper "p1" "t" (some "2025-01-01") ["TP53"]))
    (mk_paper "p1" "t" (some "2025-01-01") ["TP53"])

/-- C1, evaluated at the failing input: after re-extracting the same single
record's terms, the stored frequency of "tp53" is 2 while exactly one stored
record is associated with it — the invariant "frequency equals the live
cardinality of record associations" is broken because `insert_key_terms`
increments the counter on every call and never removes the record's stale
associations. -/
theorem C1_frequency_drifts_on_reextraction :
    ((db_reextracted.key_terms.find? (fun kt => kt.term == "tp53")).map
      KeyTermRow.frequency = some 2) ∧
    (db_reextracted.papers.filter (fun p =>
      decide (record_has_term db_reextracted p.id "tp53"))).length = 1 ∧
    (get_all_key_terms db_reextracted).map
      (fun kt => (kt.term, kt.frequency)) = [("tp53", 2)] := by
  refine ⟨by decide, by decide, by decide⟩

/-! ## C2 -/

/-- A store holding one record (id 1) with no terms yet. -/
def db_record5 : DB :=
  insert_paper init_database (mk_paper "p5" "t" (some "2025-01-01") [])

/-- The store after `associate(1, ["TP53","MDM2"])` then `associate(1,
["TP53"])` — the spec's scenario 5 with record id 1. -/
def db_after_reassociate : DB :=
  insert_key_terms (insert_key_terms db_record5 1 ["TP53", "MDM2"]) 1 ["TP53"]

/-- C2, evaluated at the failing input: after re-associating record 1 with
only "TP53", the record is still associated with "mdm2" (the prior
association is never removed) and "mdm2" keeps frequency 1 instead of
dropping to 0 as the claim requires; so the association set is
two terms, not the normalized input set. -/
theorem C2_reassociate_keeps_stale_association :
    record_has_term db_after_reassociate 1 "mdm2" ∧
    record_has_term db_after_reassociate 1 "tp53" ∧
    ((db_after_reassociate.key_terms.find? (fun kt => kt.term == "mdm2")).map
      KeyTermRow.frequency = some 1) ∧
    (db_after_reassociate.key_terms.filter
      (fun kt => kt.term == "mdm2")).length ≠ 0 := by
  refine ⟨by decide, by decide, by decide, by decide⟩

/-! ## C8 -/

/-- C8 counterexample: an update run whose only record fails its analysis
stage — the failure is caught, the record is skipped, nothing is stored, and
the cursor is still advanced from "2024-08-12" to the current date, contrary
to the claim that the cursor keeps its previous value when any stage fails. -/
theorem C8_counterexample_cursor_advances_past_failure :
    (update_research init_database false "2025-06-01" (Except.ok 1)
        (Except.ok [mk_paper "p9" "t" (some "2025-05-01") []])
        (fun _ => Except.error "analysis raised")).1.last_update_date =
      "2025-06-01" ∧
    (update_research init_database false "2025-06-01" (Except.ok 1)
        (Except.ok [mk_paper "p9" "t" (some "2025-05-01") []])
        (fun _ => Except.error "analysis raised")).1.papers = [] ∧
    init_database.last_update_date = "2024-08-12" ∧
    ("2025-06-01" : String) ≠ "2024-08-12" := by
  refine ⟨by decide, by decide, by decide, by decide⟩

/-- C8 amended: the cursor keeps its previous value exactly when the count
query raises, when an update run counts zero new records, or when the fetch
raises; once a fetched batch is processed the cursor is advanced to the
current date unconditionally — per-record failures (analysis or store) are
caught, skipped and do not block the advance. -/
theorem C8_amended_cursor_advance (db : DB) (is_initial : Bool)
    (current_date : String) (n : Nat)
    (fetch_result : Except String (List PaperData))
    (analyze_result : PaperData → Except String (String × List String))
    (msg : String) :
    (∀ fr ar, update_research db is_initial current_date
      (Except.error msg) fr ar = (db, UpdateOutcome.error)) ∧
    (is_initial = false →
      ∀ fr ar, update_research db false current_date (Except.ok 0) fr ar =
        (db, UpdateOutcome.no_new_papers)) ∧
    (¬(is_initial = false ∧ n = 0) →
      update_research db is_initial current_date (Except.ok n)
        (Except.error msg) analyze_result = (db, UpdateOutcome.error)) ∧
    (∀ papers, fetch_result = Except.ok papers →
      ¬(is_initial = false ∧ n = 0) →
      (update_research db is_initial current_date (Except.ok n)
        fetch_result analyze_result).1.last_update_date = current_date) := by
  have hguard : ¬(is_initial = false ∧ n = 0) → (!is_initial && n == 0) = false := by
    intro h
    rcases is_initial with _ | _
    · by_cases h0 : n = 0
      · exact absurd ⟨rfl, h0⟩ h
      · simp [h0]
    · simp
  refine ⟨fun fr ar => rfl, ?_, ?_, ?_⟩
  · intro h fr ar
    rfl
  · intro h
    simp only [update_research, hguard h, Bool.false_eq_true, if_false]
  · intro papers hfr h
    subst hfr
    simp only [update_research, hguard h, Bool.false_eq_true, if_false,
      update_last_update_date]

/-- Witness for C8 amended at a one-record batch whose analysis fails. -/
theorem C8_amended_cursor_advance_witness :
    ((false : Bool) = false) ∧
    ¬((false : Bool) = false ∧ (1 : Nat) = 0) ∧
    ((∀ fr ar, update_research init_database false "2025-06-01"
        (Except.error "boom") fr ar = (init_database, UpdateOutcome.error)) ∧
      ((false : Bool) = false →
        ∀ fr ar, update_research init_database false "2025-06-01"
          (Except.ok 0) fr ar = (init_database, UpdateOutcome.no_new_papers)) ∧
      (¬((false : Bool) = false ∧ (1 : Nat) = 0) →
        update_research init_database false "2025-06-01" (Except.ok 1)
          (Except.error "boom")
          (fun _ => Except.error "analysis raised") =
          (init_database, UpdateOutcome.error)) ∧
      (∀ papers,
        (Except.ok [mk_paper "p9" "t" (some "2025-05-01") []] :
            Except String (List PaperData)) = Except.ok papers →
        ¬((false : Bool) = false ∧ (1 : Nat) = 0) →
        (update_research init_database false "2025-06-01" (Except.ok 1)
          (Except.ok [mk_paper "p9" "t" (some "2025-05-01") []])
          (fun _ => Except.error "analysis raised")).1.last_update_date =
          "2025-06-01")) :=
  ⟨rfl, by decide,
    C8_amended_cursor_advance init_database false "2025-06-01" 1
      (Except.ok [mk_paper "p9" "t" (some "2025-05-01") []])
      (fun _ => Except.error "analysis raised") "boom"⟩

/-! ## C4 -/

/-- Store with record A (2025-01-01, term TP53) and record B (2025-03-01, no
terms). -/
def db_c4_base : DB :=
  insert_paper (insert_paper init_database
      (mk_paper "A" "a" (some "2025-01-01") ["TP53"]))
    (mk_paper "B" "b" (some "2025-03-01") [])

/-- After an unfiltered English summary: version 1,
latest_paper_date 2025-03-01. -/
def db_c4_v1 : DB :=
  (api_generate_summary sample_analyzer db_c4_base "en" false []).1

/-- Record C (2025-04-01, no terms) arrives after version 1. -/
def db_c4_c : DB :=
  insert_paper db_c4_v1 (mk_paper "C" "c" (some "2025-04-01") [])

/-- An English summary request filtered to term "tp53" — the filtered set is
record A only. -/
def db_c4_final : DB :=
  (api_generate_summary sample_analyzer db_c4_c "en" false ["tp53"]).1

/-- C4 counterexample: with a caller-supplied term filter, the STALE branch
saves `max(publish_date)` over the *filtered* papers, and the persisted
latest_paper_date drops from 2025-03-01 (version 1) to 2025-01-01
(version 2) — it decreases, and it is not
max(existing latest, max new-record date) = 2025-04-01. -/
theorem C4_counterexample_latest_date_decreases :
    get_latest_summary db_c4_c "en" =
      some { version := 1, language := "en", content := "summary"
             paper_count := 2, latest_paper_date := some "2025-03-01"
             key_trends := "[]", therapeutic_targets := "[]"
             prognostic_markers := "[]" } ∧
    get_papers_after_date db_c4_c (some "2025-03-01") ≠ [] ∧
    (get_latest_summary db_c4_final "en").map
      (fun s => (s.version, s.latest_paper_date)) =
      some (2, some "2025-01-01") ∧
    strLt "2025-01-01" "2025-03-01" ∧
    strMax "2025-03-01" "2025-04-01" = "2025-04-01" := by
  refine ⟨by decide, by decide, by decide, by decide, by decide⟩

/-- The truthy publish date a paper contributes to Python
`max(p['publish_date'] for p in papers if p.get('publish_date'))`. -/
def truthy_date (p : PaperRow) : Option String :=
  match p.data.publish_date with
  | none => none
  | some d => if d = "" then none else some d

/-- The fold Python `max` performs over the contributed dates. -/
def fold_max_date (acc : Option String) (ds : List String) : Option String :=
  ds.foldl (fun acc d =>
    match acc with
    | none => some d
    | some m => some (strMax m d)) acc

theorem max_publish_date_eq_fold (ps : List PaperRow) :
    max_publish_date ps = fold_max_date none (ps.filterMap truthy_date) := rfl

theorem strLe_refl (a : String) : strLe a a := le_refl a.data

theorem strLe_trans (a b c : String) (h1 : strLe a b) (h2 : strLe b c) :
    strLe a c := le_trans (α := List Char) h1 h2

theorem strLe_total (a b : String) : strLe a b ∨ strLe b a :=
  le_total a.data b.data

theorem strLe_of_strLt (a b : String) (h : strLt a b) : strLe a b :=
  le_of_lt (α := List Char) h

theorem strLe_left_strMax (a b : String) : strLe a (strMax a b) := by
  unfold strMax
  by_cases h : strLe a b
  · rw [if_pos h]; exact h
  · rw [if_neg h]; exact strLe_refl a

theorem strLe_right_strMax (a b : String) : strLe b (strMax a b) := by
  unfold strMax
  by_cases h : strLe a b
  · rw [if_pos h]; exact strLe_refl b
  · rw [if_neg h]
    rcases strLe_total a b with h1 | h1
    · exact absurd h1 h
    · exact h1

theorem strMax_cases (a b : String) : strMax a b = a ∨ strMax a b = b := by
  unfold strMax
  by_cases h : strLe a b
  · rw [if_pos h]; exact Or.inr rfl
  · rw [if_neg h]; exact Or.inl rfl

theorem str_eq_of_le_le (a b : String) (h1 : strLe a b) (h2 : strLe b a) :
    a = b := by
  have h : a.data = b.data := le_antisymm (α := List Char) h1 h2
  cases a
  cases b
  exact congrArg String.mk h

theorem strMax_eq_right (a b : String) (h : strLe a b) : strMax a b = b := by
  unfold strMax
  rw [if_pos h]

/-- The fold started on a value always yields a value: the greatest of the
start and the list, an upper bound belonging to the candidates. -/
theorem fold_max_date_acc (ds : List String) (m : String) :
    ∃ d, fold_max_date (some m) ds = some d ∧ strLe m d ∧
      (d = m ∨ d ∈ ds) ∧ ∀ x ∈ ds, strLe x d := by
  induction ds generalizing m with
  | nil =>
    refine ⟨m, rfl, strLe_refl m, Or.inl rfl, ?_⟩
    intro x hx
    exact absurd hx (List.not_mem_nil x)
  | cons d0 ds ih =>
    obtain ⟨d, hd, hled, hmem, hub⟩ := ih (strMax m d0)
    refine ⟨d, hd, ?_, ?_, ?_⟩
    · exact strLe_trans _ _ _ (strLe_left_strMax m d0) hled
    · rcases hmem with h | h
      · rcases strMax_cases m d0 with hc | hc
        · exact Or.inl (h.trans hc)
        · refine Or.inr ?_
          rw [h, hc]
          exact List.mem_cons_self d0 ds
      · exact Or.inr (List.mem_cons_of_mem d0 h)
    · intro x hx
      rcases List.mem_cons.mp hx with h | h
      · subst h
        exact strLe_trans _ _ _ (strLe_right_strMax m x) hled
      · exact hub x h

theorem fold_max_date_cons (d0 : String) (ds : List String) :
    fold_max_date none (d0 :: ds) = fold_max_date (some d0) ds := rfl

/-- Characterization of Python `max` over the truthy dates of a paper list:
when defined, the result is contributed by some paper and bounds every
paper's truthy date. -/
theorem max_publish_date_spec (ps : List PaperRow) (d : String)
    (h : max_publish_date ps = some d) :
    (∃ p ∈ ps, truthy_date p = some d) ∧
    ∀ p ∈ ps, ∀ y, truthy_date p = some y → strLe y d := by
  rw [max_publish_date_eq_fold] at h
  rcases hds : ps.filterMap truthy_date with _ | ⟨d0, ds⟩
  · rw [hds] at h
    exact absurd h (by simp [fold_max_date])
  · rw [hds, fold_max_date_cons] at h
    obtain ⟨d2, hd2, hled, hmem, hub⟩ := fold_max_date_acc ds d0
    rw [hd2] at h
    have hde : d2 = d := Option.some.inj h
    have hdmem : d ∈ ps.filterMap truthy_date := by
      rw [hds]
      rcases hmem with h2 | h2
      · rw [← hde, h2]
        exact List.mem_cons_self d0 ds
      · rw [← hde]
        exact List.mem_cons_of_mem d0 h2
    refine ⟨List.mem_filterMap.mp hdmem, ?_⟩
    intro p hp y hy
    have hymem : y ∈ ps.filterMap truthy_date :=
      List.mem_filterMap.mpr ⟨p, hp, hy⟩
    rw [hds] at hymem
    rcases List.mem_cons.mp hymem with h2 | h2
    · subst h2
      rw [← hde]
      exact hled
    · rw [← hde]
      exact hub y h2

/-- Python `max` is defined whenever some paper contributes a truthy date. -/
theorem max_publish_date_isSome (ps : List PaperRow) (p : PaperRow)
    (y : String) (hp : p ∈ ps) (hy : truthy_date p = some y) :
    ∃ d, max_publish_date ps = some d := by
  rw [max_publish_date_eq_fold]
  have hmem : y ∈ ps.filterMap truthy_date := List.mem_filterMap.mpr ⟨p, hp, hy⟩
  rcases hds : ps.filterMap truthy_date with _ | ⟨d0, ds⟩
  · rw [hds] at hmem
    exact absurd hmem (List.not_mem_nil y)
  · rw [fold_max_date_cons]
    obtain ⟨d, hd, _, _, _⟩ := fold_max_date_acc ds d0
    exact ⟨d, hd⟩

theorem truthy_date_spec (p : PaperRow) (y : String)
    (h : truthy_date p = some y) :
    p.data.publish_date = some y ∧ y ≠ "" := by
  rcases hp : p.data.publish_date with _ | d
  · simp only [truthy_date, hp] at h
    exact Option.noConfusion h
  · simp only [truthy_date, hp] at h
    by_cases he : d = ""
    · rw [if_pos he] at h
      exact absurd h (by simp)
    · rw [if_neg he] at h
      have hdy := Option.some.inj h
      subst hdy
      exact ⟨rfl, he⟩

theorem truthy_date_of_pub (p : PaperRow) (y : String)
    (hp : p.data.publish_date = some y) (hy : y ≠ "") :
    truthy_date p = some y := by
  simp only [truthy_date, hp]
  rw [if_neg hy]

/-- Membership in `get_all_papers` is membership in the papers table. -/
theorem mem_get_all_papers (db : DB) (p : PaperRow) :
    p ∈ get_all_papers db none ↔ p ∈ db.papers :=
  (List.perm_insertionSort date_desc db.papers).mem_iff

/-- Membership in `get_papers_after_date` for a non-NULL bound: stored, with
a publish date strictly after the bound. -/
theorem mem_get_papers_after_date (db : DB) (L : String) (p : PaperRow) :
    p ∈ get_papers_after_date db (some L) ↔
      p ∈ db.papers ∧ ∃ x, p.data.publish_date = some x ∧ strLt L x := by
  unfold get_papers_after_date
  rw [(List.perm_insertionSort date_desc _).mem_iff]
  rw [List.mem_filter]
  constructor
  · rintro ⟨hmem, hf⟩
    refine ⟨hmem, ?_⟩
    rcases hp : p.data.publish_date with _ | x
    · rw [hp] at hf
      exact absurd hf (by simp)
    · rw [hp] at hf
      rw [decide_eq_true_eq] at hf
      exact ⟨x, rfl, hf⟩
  · rintro ⟨hmem, x, hx, hlt⟩
    refine ⟨hmem, ?_⟩
    rw [hx]
    exact decide_eq_true hlt

/-- The empty string is the least date string, so anything strictly above
some string is non-empty. -/
theorem ne_empty_of_strLt (L x : String) (h : strLt L x) : x ≠ "" := by
  intro hc
  subst hc
  exact List.Lex.not_nil_right _ _ h

theorem strLe_of_not_strLt (a b : String) (h : ¬ strLt a b) : strLe b a :=
  le_of_not_lt h

/-- C4 amended: latest_paper_date is computed as the maximum publish date
over the paper set the request selected, so the spec's formula
`max(existing latest, max new-record date)` holds exactly for requests with
no term filter: on the incremental branch the saved summary row carries
`some (strMax L dNew)` where `dNew` is the greatest date among the new
records, this is at least the previous value `L`, and the response reports
an incremental update at the next global version.  With a term filter the
saved date is the maximum over the filtered set only and can decrease
(see the counterexample). -/
theorem C4_amended_incremental_latest_date (an : Analyzer) (db : DB)
    (language : String) (s : SummaryRow) (L : String)
    (hs : get_latest_summary db language = some s)
    (hL : s.latest_paper_date = some L)
    (hnew : get_papers_after_date db (some L) ≠ []) :
    ∃ dAll dNew,
      max_publish_date (get_all_papers db none) = some dAll ∧
      max_publish_date (get_papers_after_date db (some L)) = some dNew ∧
      dAll = strMax L dNew ∧
      strLe L dAll ∧
      (api_generate_summary an db language false []).1.summaries =
        db.summaries.filter (fun s2 =>
          !(s2.version == db.summary_version + 1 && s2.language == language)) ++
        [{ version := db.summary_version + 1, language := language
           content := an.generate_incremental_summary s.content
             (get_papers_after_date db (some L)) language
           paper_count := (get_all_papers db none).length
           latest_paper_date := some dAll
           key_trends := (an.extract_research_trends
             (get_all_papers db none)).1
           therapeutic_targets := (an.extract_research_trends
             (get_all_papers db none)).2.1
           prognostic_markers := (an.extract_research_trends
             (get_all_papers db none)).2.2 }] ∧
      (api_generate_summary an db language false []).2 =
        SummaryResponse.ok
          (an.generate_incremental_summary s.content
            (get_papers_after_date db (some L)) language)
          (get_all_papers db none).length
          (get_papers_after_date db (some L)).length
          (db.summary_version + 1) "incremental" := by
  obtain ⟨q0, hq0⟩ := List.exists_mem_of_ne_nil _ hnew
  obtain ⟨hq0mem, x0, hx0, hlt0⟩ := (mem_get_papers_after_date db L q0).mp hq0
  have hq0t : truthy_date q0 = some x0 :=
    truthy_date_of_pub q0 x0 hx0 (ne_empty_of_strLt L x0 hlt0)
  have hq0AP : q0 ∈ get_all_papers db none := (mem_get_all_papers db q0).mpr hq0mem
  obtain ⟨dNew, hdNew⟩ :=
    max_publish_date_isSome (get_papers_after_date db (some L)) q0 x0 hq0 hq0t
  obtain ⟨dAll, hdAll⟩ :=
    max_publish_date_isSome (get_all_papers db none) q0 x0 hq0AP hq0t
  obtain ⟨⟨pA, hpA, hpAt⟩, hubA⟩ :=
    max_publish_date_spec (get_all_papers db none) dAll hdAll
  obtain ⟨⟨pN, hpN, hpNt⟩, hubN⟩ :=
    max_publish_date_spec (get_papers_after_date db (some L)) dNew hdNew
  -- the greatest new date is strictly after L
  have hLdNew : strLt L dNew := by
    obtain ⟨hpub, _⟩ := truthy_date_spec pN dNew hpNt
    obtain ⟨_, x, hx, hltx⟩ := (mem_get_papers_after_date db L pN).mp hpN
    rw [hpub] at hx
    have hxd := Option.some.inj hx
    rw [← hxd] at hltx
    exact hltx
  -- the overall maximum and the new-records maximum agree
  have hNleA : strLe dNew dAll := by
    obtain ⟨hmemN, _, _, _⟩ := (mem_get_papers_after_date db L pN).mp hpN
    exact hubA pN ((mem_get_all_papers db pN).mpr hmemN) dNew hpNt
  have hAleN : strLe dAll dNew := by
    obtain ⟨hpubA, _⟩ := truthy_date_spec pA dAll hpAt
    have hmemA : pA ∈ db.papers := (mem_get_all_papers db pA).mp hpA
    by_cases hlt : strLt L dAll
    · have hpANP : pA ∈ get_papers_after_date db (some L) :=
        (mem_get_papers_after_date db L pA).mpr ⟨hmemA, dAll, hpubA, hlt⟩
      exact hubN pA hpANP dAll hpAt
    · exact strLe_trans _ _ _ (strLe_of_not_strLt L dAll hlt)
        (strLe_of_strLt L dNew hLdNew)
  have hAN : dAll = dNew := str_eq_of_le_le dAll dNew hAleN hNleA
  have hmaxeq : dAll = strMax L dNew := by
    rw [strMax_eq_right L dNew (strLe_of_strLt L dNew hLdNew)]
    exact hAN
  have hLleA : strLe L dAll := by
    rw [hAN]
    exact strLe_of_strLt L dNew hLdNew
  have hAPne : get_all_papers db none ≠ [] := List.ne_nil_of_mem hq0AP
  refine ⟨dAll, dNew, hdAll, hdNew, hmaxeq, hLleA, ?_, ?_⟩ <;>
    simp [api_generate_summary, hs, hL, hnew, hAPne, hdAll,
      save_research_summary]

/-- Version-1 English summary over a single 2025-01-01 record. -/
def db_c4w_v1 : DB :=
  (api_generate_summary sample_analyzer
    (insert_paper init_database (mk_paper "A" "a" (some "2025-01-01") []))
    "en" false []).1

/-- The same store after a 2025-03-01 record arrives. -/
def db_c4w : DB :=
  insert_paper db_c4w_v1 (mk_paper "B" "b" (some "2025-03-01") [])

/-- The stored version-1 summary row of `db_c4w`. -/
def c4w_row : SummaryRow :=
  { version := 1, language := "en", content := "summary"
    paper_count := 1, latest_paper_date := some "2025-01-01"
    key_trends := "[]", therapeutic_targets := "[]"
    prognostic_markers := "[]" }

/-- Witness for C4 amended: an unfiltered incremental request over a store
whose new record is dated 2025-03-01. -/
theorem C4_amended_incremental_latest_date_witness :
    get_latest_summary db_c4w "en" = some c4w_row ∧
    c4w_row.latest_paper_date = some "2025-01-01" ∧
    get_papers_after_date db_c4w (some "2025-01-01") ≠ [] ∧
    (∃ dAll dNew,
      max_publish_date (get_all_papers db_c4w none) = some dAll ∧
      max_publish_date (get_papers_after_date db_c4w (some "2025-01-01")) =
        some dNew ∧
      dAll = strMax "2025-01-01" dNew ∧
      strLe "2025-01-01" dAll ∧
      (api_generate_summary sample_analyzer db_c4w "en" false
        []).1.summaries =
        db_c4w.summaries.filter (fun s2 =>
          !(s2.version == db_c4w.summary_version + 1 &&
            s2.language == "en")) ++
        [{ version := db_c4w.summary_version + 1, language := "en"
           content := sample_analyzer.generate_incremental_summary
             c4w_row.content
             (get_papers_after_date db_c4w (some "2025-01-01")) "en"
           paper_count := (get_all_papers db_c4w none).length
           latest_paper_date := some dAll
           key_trends := (sample_analyzer.extract_research_trends
             (get_all_papers db_c4w none)).1
           therapeutic_targets := (sample_analyzer.extract_research_trends
             (get_all_papers db_c4w none)).2.1
           prognostic_markers := (sample_analyzer.extract_research_trends
             (get_all_papers db_c4w none)).2.2 }] ∧
      (api_generate_summary sample_analyzer db_c4w "en" false []).2 =
        SummaryResponse.ok
          (sample_analyzer.generate_incremental_summary c4w_row.content
            (get_papers_after_date db_c4w (some "2025-01-01")) "en")
          (get_all_papers db_c4w none).length
          (get_papers_after_date db_c4w (some "2025-01-01")).length
          (db_c4w.summary_version + 1) "incremental") :=
  ⟨by decide, rfl, by decide,
    C4_amended_incremental_latest_date sample_analyzer db_c4w "en" c4w_row
      "2025-01-01" (by decide) rfl (by decide)⟩
